import Mathlib

/-
Verification of the video loader (src/unnamed/part_000) and the scroll
animation helpers (src/js/scroll-animations.js).

The video loader is a single-threaded, event-loop-driven "readiness gate".
We embed its module state and each of its functions as pure Lean functions
over an explicit `World`, and model the JavaScript event loop as a step
function that repeatedly executes the pending `setTimeout` callback with the
earliest deadline (ties broken by insertion order, i.e. by ascending timer
id, matching the JS timer queue).  Times are integer milliseconds (`Int`).
Each `setTimeout(f, d)` call made by the source is represented by appending
a timer carrying the fire time `now + d` and a tag naming the callback body.
`revealTimes` and `settleTimes` are ghost instrumentation recording the
times at which `brightenAndFadeOut` and its inner settle callback executed.
-/

namespace VideoLoader

/-- Configuration object, from src/unnamed/part_000 lines 10-14.
`DEBUG` has no behavioural effect and is omitted. -/
structure Config where
  FALLBACK_TIMEOUT : Int
  MIN_DISPLAY_TIME : Int
deriving DecidableEq

/-- The shipped configuration: FALLBACK_TIMEOUT 5000 ms, MIN_DISPLAY_TIME 1500 ms. -/
def CONFIG : Config := { FALLBACK_TIMEOUT := 5000, MIN_DISPLAY_TIME := 1500 }

/-- Tags naming the four `setTimeout` callback bodies of the source:
the delayed reveal body (lines 105-109), the settle body inside
`brightenAndFadeOut` (lines 123-125), the fallback-timer body (lines 132-137)
and the `useFallbackMethod` body (lines 154-158). -/
inductive Cb where
  | revealCb
  | settleCb
  | fallbackCb
  | useFallbackCb
deriving DecidableEq

/-- A pending timer: numeric handle, absolute fire time, callback body. -/
structure Timer where
  id : Nat
  time : Int
  cb : Cb
deriving DecidableEq

/-- Module state of the loader (lines 17-20) together with the event-loop
timer queue, the two container class markers, and ghost execution logs. -/
structure World where
  isVideoReady : Bool
  videoLoadStartTime : Int
  fallbackTimer : Option Nat
  pending : List Timer
  nextId : Nat
  playerCreated : Bool
  videoLoaded : Bool
  videoFullyLoaded : Bool
  revealTimes : List Int
  settleTimes : List Int
deriving DecidableEq

/-- State before `init` runs: flags clear, no timers, no classes. -/
def initialWorld : World :=
  { isVideoReady := false, videoLoadStartTime := 0, fallbackTimer := none,
    pending := [], nextId := 0, playerCreated := false, videoLoaded := false,
    videoFullyLoaded := false, revealTimes := [], settleTimes := [] }

/-- JS `setTimeout(cb, delay)` at absolute time `now`: arm a timer with a
fresh ascending id firing at `now + delay`. -/
def setTimeout (w : World) (now delay : Int) (cb : Cb) : World :=
  { w with pending := w.pending ++ [⟨w.nextId, now + delay, cb⟩],
           nextId := w.nextId + 1 }

/-- `handleVideoReady(container)`, lines 97-110.  If `isVideoReady` is set it
returns (the line-98 guard); otherwise it computes
`loadTime = now - videoLoadStartTime` and
`minDisplayTime = Math.max(0, MIN_DISPLAY_TIME - loadTime)` and arms the
delayed reveal callback after `minDisplayTime`.  Note that `isVideoReady` is
set only inside that delayed callback, not here. -/
def handleVideoReady (cfg : Config) (now : Int) (w : World) : World :=
  if w.isVideoReady then w
  else setTimeout w now (max 0 (cfg.MIN_DISPLAY_TIME - (now - w.videoLoadStartTime))) Cb.revealCb

/-- `brightenAndFadeOut(container)`, lines 115-126: add the `video-loaded`
class, then arm the settle callback (adds `video-fully-loaded`) after a fixed
5500 ms.  The ghost log `revealTimes` records this execution. -/
def brightenAndFadeOut (now : Int) (w : World) : World :=
  setTimeout { w with videoLoaded := true, revealTimes := w.revealTimes ++ [now] } now 5500 Cb.settleCb

/-- `clearFallbackTimeout()`, lines 143-148: if the fallback handle is live,
`clearTimeout` it (remove it from the queue if still pending) and null the
handle. -/
def clearFallbackTimeout (w : World) : World :=
  w.fallbackTimer.elim w fun tid =>
    { w with pending := w.pending.filter (fun t2 => t2.id != tid), fallbackTimer := none }

/-- `setupFallbackTimeout(container)`, lines 131-138: arm the fallback body
after `FALLBACK_TIMEOUT` and keep its handle in `fallbackTimer`. -/
def setupFallbackTimeout (cfg : Config) (now : Int) (w : World) : World :=
  { setTimeout w now cfg.FALLBACK_TIMEOUT Cb.fallbackCb with fallbackTimer := some w.nextId }

/-- `useFallbackMethod(container)`, lines 153-159: arm a forced-reveal body
after a fixed 3000 ms. -/
def useFallbackMethod (now : Int) (w : World) : World :=
  setTimeout w now 3000 Cb.useFallbackCb

/-- Execution of each `setTimeout` callback body at its fire time `now`.
The reveal body (lines 105-109) sets `isVideoReady`, runs
`brightenAndFadeOut`, then `clearFallbackTimeout` - with no re-check of the
flag.  The settle body (lines 123-125) adds `video-fully-loaded`.  The
fallback body (lines 132-137) and the `useFallbackMethod` body (lines
154-158) call `handleVideoReady` only when `isVideoReady` is still false. -/
def execCb (cfg : Config) (cb : Cb) (now : Int) (w : World) : World :=
  match cb with
  | Cb.revealCb => clearFallbackTimeout (brightenAndFadeOut now { w with isVideoReady := true })
  | Cb.settleCb => { w with videoFullyLoaded := true, settleTimes := w.settleTimes ++ [now] }
  | Cb.fallbackCb => if w.isVideoReady then w else handleVideoReady cfg now w
  | Cb.useFallbackCb => if w.isVideoReady then w else handleVideoReady cfg now w

/-- Of two pending timers, the one the event loop fires first: earlier
deadline wins, ties go to the smaller (earlier-inserted) id. -/
def better (a b : Timer) : Timer :=
  if b.time < a.time ∨ (b.time = a.time ∧ b.id < a.id) then b else a

/-- The pending timer the event loop fires next, if any. -/
def nextTimer : List Timer → Option Timer
  | [] => none
  | t :: ts => some (ts.foldl better t)

/-- One event-loop step: pop and execute the next due timer. -/
def step (cfg : Config) (w : World) : World :=
  (nextTimer w.pending).elim w fun t =>
    execCb cfg t.cb t.time { w with pending := w.pending.filter (fun t2 => t2.id != t.id) }

/-- Run the event loop for a bounded number of steps (a step on an empty
queue is the identity). -/
def run (cfg : Config) : Nat → World → World
  | 0, w => w
  | n + 1, w => run cfg n (step cfg w)

/-- Page environment at startup: the reduced-motion media query, whether the
hero iframe/container elements exist, whether the Vimeo API object is
loaded, and whether `new Vimeo.Player(iframe)` succeeds. -/
structure Env where
  prefersReducedMotion : Bool
  elementsFound : Bool
  apiLoaded : Bool
  constructionSucceeds : Bool
deriving DecidableEq

/-- The ordinary healthy environment. -/
def envOk : Env :=
  { prefersReducedMotion := false, elementsFound := true, apiLoaded := true,
    constructionSucceeds := true }

/-- A healthy environment whose user prefers reduced motion. -/
def envRM : Env :=
  { prefersReducedMotion := true, elementsFound := true, apiLoaded := true,
    constructionSucceeds := true }

/-- `checkUserPreferences()`, lines 164-177: under reduced motion, add the
`video-loaded` class to the container (when present) and return false;
otherwise return true. -/
def checkUserPreferences (prefersReducedMotion elementsFound : Bool) (w : World) : Bool × World :=
  if prefersReducedMotion then
    (false, if elementsFound then { w with videoLoaded := true } else w)
  else (true, w)

/-- `initVimeoPlayer()`, lines 25-57: bail out if the elements are missing;
record `videoLoadStartTime`; if the Vimeo API is absent, `useFallbackMethod`;
otherwise construct the player and arm the fallback timer, falling back to
`useFallbackMethod` if construction throws.  `setupEventListeners` only
registers external subscriptions and arms no timers.  Start time is taken
as the origin 0. -/
def initVimeoPlayer (cfg : Config) (env : Env) (w : World) : World :=
  if env.elementsFound = false then w
  else
    let w2 := { w with videoLoadStartTime := 0 }
    if env.apiLoaded = false then useFallbackMethod 0 w2
    else if env.constructionSucceeds = true then
      setupFallbackTimeout cfg 0 { w2 with playerCreated := true }
    else useFallbackMethod 0 w2

/-- `init()`, lines 193-208: consult `checkUserPreferences`; when it returns
false the gate is bypassed entirely, otherwise `initVimeoPlayer` runs. -/
def init (cfg : Config) (env : Env) : World :=
  match checkUserPreferences env.prefersReducedMotion env.elementsFound initialWorld with
  | (false, w) => w
  | (true, w) => initVimeoPlayer cfg env w

/-- The failure modes of the gate: Vimeo API absent at start, player
construction throwing, the ready promise rejecting at time `t`, a runtime
error event at time `t`, and no readiness signal ever arriving. -/
inductive FailureMode where
  | apiAbsent
  | constructionThrows
  | readyRejects (t : Int)
  | errorEvent (t : Int)
  | noSignal
deriving DecidableEq

/-- A failure mode's event time does not precede start. -/
abbrev FailureMode.eventTimeValid : FailureMode → Prop
  | FailureMode.readyRejects t => 0 ≤ t
  | FailureMode.errorEvent t => 0 ≤ t
  | _ => True

/-- World resulting from each failure mode, with `start()` at time 0.  API
absence and construction failure route through `useFallbackMethod` with no
fallback timer armed; promise rejection and the error event run their
handlers (both call `useFallbackMethod`, lines 82-85 and 88-91) at time `t`
with the fallback timer already armed; `noSignal` is the healthy start with
no signal ever delivered. -/
def failureWorld (cfg : Config) : FailureMode → World
  | FailureMode.apiAbsent =>
      init cfg { prefersReducedMotion := false, elementsFound := true,
                 apiLoaded := false, constructionSucceeds := true }
  | FailureMode.constructionThrows =>
      init cfg { prefersReducedMotion := false, elementsFound := true,
                 apiLoaded := true, constructionSucceeds := false }
  | FailureMode.readyRejects t => useFallbackMethod t (init cfg envOk)
  | FailureMode.errorEvent t => useFallbackMethod t (init cfg envOk)
  | FailureMode.noSignal => init cfg envOk

/-- The gate has converged: flag set, both class markers applied, queue empty. -/
abbrev settledOk (w : World) : Prop :=
  w.isVideoReady = true ∧ w.videoLoaded = true ∧ w.videoFullyLoaded = true ∧ w.pending = []

end VideoLoader

namespace ScrollAnimations

/-- State of the `#header` element and the `lastScroll` closure variable of
`initHeaderScroll` (src/js/scroll-animations.js lines 174-206): the three
classes the handler toggles plus the last seen scroll offset. -/
structure HeaderState where
  scrolled : Bool
  scrollDown : Bool
  scrollUp : Bool
  lastScroll : Int
deriving DecidableEq

/-- Header before any scroll event: no classes, `lastScroll = 0` (line 178). -/
def initialHeader : HeaderState :=
  { scrolled := false, scrollDown := false, scrollUp := false, lastScroll := 0 }

/-- `scrollThreshold`, line 179. -/
def scrollThreshold : Int := 100

/-- The scroll listener body of `initHeaderScroll`, lines 181-205, applied
to one scroll event carrying `currentScroll = window.pageYOffset`. -/
def headerOnScroll (s : HeaderState) (currentScroll : Int) : HeaderState :=
  let s1 := if currentScroll > 50 then { s with scrolled := true } else { s with scrolled := false }
  let s2 :=
    if currentScroll > scrollThreshold then
      if currentScroll > s1.lastScroll ∧ s1.scrollDown = false then
        { s1 with scrollDown := true, scrollUp := false }
      else if currentScroll < s1.lastScroll ∧ s1.scrollDown = true then
        { s1 with scrollUp := true, scrollDown := false }
      else s1
    else s1
  { s2 with lastScroll := currentScroll }

/-- The ECMA-262 WhiteSpace and LineTerminator code points stripped by JS
`String.prototype.trim()`: TAB, LF, VT, FF, CR, SPACE, NBSP, OGHAM SPACE
MARK, EN QUAD through HAIR SPACE, LINE SEPARATOR, PARAGRAPH SEPARATOR,
NARROW NO-BREAK SPACE, MEDIUM MATHEMATICAL SPACE, IDEOGRAPHIC SPACE and
ZWNBSP (BOM). -/
def jsWhitespace (c : Char) : Bool :=
  let n := c.toNat
  n == 0x9 || n == 0xA || n == 0xB || n == 0xC || n == 0xD || n == 0x20
    || n == 0xA0 || n == 0x1680 || (decide (0x2000 ≤ n) && decide (n ≤ 0x200A))
    || n == 0x2028 || n == 0x2029 || n == 0x202F || n == 0x205F
    || n == 0x3000 || n == 0xFEFF

/-- JS `String.prototype.trim()` on the element text (line 100): strip
leading and trailing ECMA-262 whitespace.  Written over the character list
so that it evaluates by kernel reduction. -/
def jsTrim (s : String) : String :=
  String.mk (((s.data.dropWhile jsWhitespace).reverse.dropWhile jsWhitespace).reverse)

/-- The digit characters of a string, in order: `target.replace(/[^0-9]/g, '')`
(lines 101 and 105). -/
def extractDigits (s : String) : List Char := s.data.filter Char.isDigit

/-- The exact decimal value of a digit string; `parseInt` returns this value
rounded to binary64 (exact below 2^53). -/
def digitsVal (l : List Char) : Nat := l.foldl (fun a c => a * 10 + (c.toNat - 48)) 0

/-- State of one running counter animation (lines 108-118): the accumulating
`current` value, the element's text, and whether `clearInterval` has run.
Machine numbers (binary64 in the source) are represented by the rationals
they denote; the machine operations themselves are parameters, see
`counterTick`. -/
structure CounterState where
  current : Rat
  text : String
  cleared : Bool
deriving DecidableEq

/-- One firing of the 16 ms interval of `animateCounter`, lines 110-118:
`current += increment`; once `current >= targetNumber` the original
(trimmed) `target` text is restored and the interval cleared, otherwise the
floored value is displayed (`toLocaleString` thousands grouping is
locale-dependent and rendered here as plain digits; no claim concerns the
transient text).  The source computes in IEEE-754 binary64, so the machine
operations are parameters: `add` is the machine addition of `+=`, `tgt` the
machine value of `targetNumber` (from `parseInt`), `inc` the machine value
of `increment = targetNumber / (2000 / 16)`.  The theorems constrain them
only by the round-to-nearest lower error bound
`(x + y) * (1 - e) <= add x y` for nonnegative operands with per-operation
relative error `e` (`2^-53` for binary64 in the finite range, `0` for exact
arithmetic), so they cover every compliant rounding; the `>=` comparison of
two machine numbers is exact in binary64 and is modelled exactly. -/
def counterTick (add : Rat → Rat → Rat) (target : String) (tgt inc : Rat) (s : CounterState) : CounterState :=
  if s.cleared then s
  else if tgt ≤ add s.current inc then
    { current := add s.current inc, text := target, cleared := true }
  else
    { current := add s.current inc,
      text := toString (Int.floor (add s.current inc))
        ++ (if target.contains '+' then ("+") else ("")),
      cleared := false }

/-- Run the interval for a bounded number of firings (firing a cleared
interval is the identity). -/
def runCounter (add : Rat → Rat → Rat) (target : String) (tgt inc : Rat) : Nat → CounterState → CounterState
  | 0, s => s
  | k + 1, s => runCounter add target tgt inc k (counterTick add target tgt inc s)

/-- `animateCounter(element)`, lines 99-119, observed as the element text
after `ticks` interval firings: `target = textContent.trim()`; when the
digit extraction is empty (`parseInt` gives NaN) the element is untouched,
otherwise the interval animates from 0 upward.  `parse` is the machine
value of `parseInt(digits)` and `div125` the machine division by
`duration / 16 = 2000 / 16` (the divisor 125 itself is exact in binary64). -/
def animateCounter (add : Rat → Rat → Rat) (parse : List Char → Rat) (div125 : Rat → Rat)
    (raw : String) (ticks : Nat) : String :=
  if extractDigits (jsTrim raw) = [] then raw
  else (runCounter add (jsTrim raw) (parse (extractDigits (jsTrim raw)))
    (div125 (parse (extractDigits (jsTrim raw)))) ticks
    { current := 0, text := raw, cleared := false }).text

/-- Exact rational machine addition: satisfies the rounding bounds with
`e = 0` and coincides with binary64 whenever every intermediate sum is
exactly representable (e.g. all small-integer sums). -/
def addExact : Rat → Rat → Rat := fun a b => a + b

/-- Exact `parseInt` value: coincides with binary64 for digit values below
2^53. -/
def parseExact : List Char → Rat := fun l => (digitsVal l : Rat)

/-- Exact division by `2000 / 16`: coincides with binary64 whenever the
quotient is exactly representable (e.g. 125 / 125 = 1). -/
def divExact : Rat → Rat := fun x => x / (2000 / 16)

end ScrollAnimations

open VideoLoader ScrollAnimations

/-- Helper: a strictly earlier deadline wins the timer selection. -/
lemma better_snd (a b : Timer) (h : b.time < a.time) : better a b = b := by
  unfold better
  rw [if_pos (Or.inl h)]

/-- Helper: with a no-later deadline and an earlier id, the first timer wins. -/
lemma better_fst (a b : Timer) (h : a.time ≤ b.time) (hid : a.id < b.id) : better a b = a := by
  unfold better
  rw [if_neg]
  rintro (h2 | ⟨h2, h3⟩) <;> omega

/-- C1: for every signal arrival time `now` at or after start, an effective
`handleVideoReady` call arms the reveal exactly
`max 0 (MIN_DISPLAY_TIME - elapsed)` ms later, so the reveal timer's fire
time is never earlier than `MIN_DISPLAY_TIME` (1500 ms) after start. -/
theorem claim_C1 (w : World) (now : Int) (h1 : w.isVideoReady = false)
    (h2 : w.videoLoadStartTime ≤ now) :
    (handleVideoReady CONFIG now w).pending
      = w.pending ++ [⟨w.nextId, now + max 0 (CONFIG.MIN_DISPLAY_TIME - (now - w.videoLoadStartTime)), Cb.revealCb⟩]
    ∧ w.videoLoadStartTime + CONFIG.MIN_DISPLAY_TIME
        ≤ now + max 0 (CONFIG.MIN_DISPLAY_TIME - (now - w.videoLoadStartTime)) := by
  constructor
  · unfold handleVideoReady setTimeout
    rw [if_neg (by simp [h1])]
  · rcases le_total (CONFIG.MIN_DISPLAY_TIME - (now - w.videoLoadStartTime)) 0 with h | h
    · rw [max_eq_left h]
      omega
    · rw [max_eq_right h]
      omega

/-- Witness for C1 at the scenario input: start 0, signal at 200 ms. -/
theorem claim_C1_witness :
    initialWorld.isVideoReady = false
    ∧ initialWorld.videoLoadStartTime ≤ 200
    ∧ ((handleVideoReady CONFIG 200 initialWorld).pending
        = initialWorld.pending ++ [⟨initialWorld.nextId, 200 + max 0 (CONFIG.MIN_DISPLAY_TIME - (200 - initialWorld.videoLoadStartTime)), Cb.revealCb⟩]
       ∧ initialWorld.videoLoadStartTime + CONFIG.MIN_DISPLAY_TIME
           ≤ 200 + max 0 (CONFIG.MIN_DISPLAY_TIME - (200 - initialWorld.videoLoadStartTime))) :=
  ⟨rfl, by decide, claim_C1 initialWorld 200 rfl (by decide)⟩

/-- C2 (failing evaluation): two `handleVideoReady` calls in the same tick at
t = 200 ms, before the delayed callback has set `isVideoReady`, both pass the
line-98 guard; running the loop to quiescence executes the reveal twice (at
t = 1500 twice) and the settle twice (at t = 7000 twice) - not once each. -/
theorem claim_C2 :
    (run CONFIG 10 (handleVideoReady CONFIG 200 (handleVideoReady CONFIG 200 (init CONFIG envOk)))).revealTimes
      = [1500, 1500]
    ∧ (run CONFIG 10 (handleVideoReady CONFIG 200 (handleVideoReady CONFIG 200 (init CONFIG envOk)))).settleTimes
      = [7000, 7000] := by
  decide

/-- C3 counterexample: with start at 0 and a signal at 200 ms, at the moment
the reveal has just been scheduled the fallback timer is still armed and
still pending - it is only cancelled (handle nulled) when the delayed reveal
callback executes, contradicting cancellation at schedule time. -/
theorem claim_C3_cex :
    (handleVideoReady CONFIG 200 (init CONFIG envOk)).fallbackTimer = some 0
    ∧ (handleVideoReady CONFIG 200 (init CONFIG envOk)).pending
        = [⟨0, 5000, Cb.fallbackCb⟩, ⟨1, 1500, Cb.revealCb⟩]
    ∧ (step CONFIG (handleVideoReady CONFIG 200 (init CONFIG envOk))).fallbackTimer = none := by
  decide

/-- C3 (amended): the fallback timer is cancelled when the delayed reveal
callback executes, not when the reveal is scheduled; the `ready` flag is set
at the same moment, so any later signal - in particular a late error-path
forced reveal - is a no-op and cannot cause a second reveal. -/
theorem claim_C3 (w : World) (now now2 : Int) :
    (execCb CONFIG Cb.revealCb now w).fallbackTimer = none
    ∧ (execCb CONFIG Cb.revealCb now w).isVideoReady = true
    ∧ handleVideoReady CONFIG now2 (execCb CONFIG Cb.revealCb now w)
        = execCb CONFIG Cb.revealCb now w
    ∧ execCb CONFIG Cb.useFallbackCb now2 (execCb CONFIG Cb.revealCb now w)
        = execCb CONFIG Cb.revealCb now w := by
  rcases hf : w.fallbackTimer with _ | tid <;>
    simp [execCb, clearFallbackTimeout, brightenAndFadeOut, setTimeout, handleVideoReady,
      Option.elim, hf]

/-- C5: with no ready signal ever delivered, the fallback fires at t = 5000;
the min-display computation yields a zero delay (the reveal timer is armed
for t = 5000 itself), so the reveal runs at t = 5000 and the settle at
t = 10500, within `FALLBACK_TIMEOUT + MIN_DISPLAY_TIME` of start. -/
theorem claim_C5 :
    (run CONFIG 1 (failureWorld CONFIG FailureMode.noSignal)).pending
      = [⟨1, 5000, Cb.revealCb⟩]
    ∧ (run CONFIG 3 (failureWorld CONFIG FailureMode.noSignal)).revealTimes = [5000]
    ∧ (run CONFIG 3 (failureWorld CONFIG FailureMode.noSignal)).settleTimes = [10500]
    ∧ (5000 : Int) ≤ CONFIG.FALLBACK_TIMEOUT + CONFIG.MIN_DISPLAY_TIME := by
  decide

/-- C6 counterexample: the forced-reveal path does not bypass the
minimum-display computation; with `MIN_DISPLAY_TIME` raised to 4000 ms the
dependency-absent reveal fires at t = 4000, not within 3000 ms - so the
3000 ms bound does not hold regardless of `MIN_DISPLAY_TIME`. -/
theorem claim_C6_cex :
    (run { FALLBACK_TIMEOUT := 5000, MIN_DISPLAY_TIME := 4000 } 3
        (failureWorld { FALLBACK_TIMEOUT := 5000, MIN_DISPLAY_TIME := 4000 } FailureMode.apiAbsent)).revealTimes
      = [4000]
    ∧ ¬((4000 : Int) ≤ 3000) := by
  decide

/-- C6 (amended): when the API is absent at start or construction fails, a
forced ready signal is scheduled after a fixed 3000 ms; it passes through
the same minimum-display computation, which adds zero delay under the
shipped configuration (`MIN_DISPLAY_TIME = 1500 <= 3000`), so the reveal
fires at exactly t = 3000 with the shipped configuration. -/
theorem claim_C6 :
    (run CONFIG 3 (failureWorld CONFIG FailureMode.apiAbsent)).revealTimes = [3000]
    ∧ (run CONFIG 3 (failureWorld CONFIG FailureMode.constructionThrows)).revealTimes = [3000]
    ∧ (run CONFIG 3 (failureWorld CONFIG FailureMode.apiAbsent)).pending = []
    ∧ CONFIG.MIN_DISPLAY_TIME ≤ 3000 := by
  decide

/-- C7 counterexample: under reduced motion, `init` applies the `video-loaded`
marker but not the `video-fully-loaded` marker, contradicting the claim that
the "fully revealed" marker is applied synchronously at startup. -/
theorem claim_C7_cex :
    (init CONFIG envRM).videoFullyLoaded = false
    ∧ (init CONFIG envRM).videoLoaded = true := by
  decide

/-- C7 (amended): when reduced motion is preferred (and the container
exists), the gate is bypassed entirely - the revealed marker `video-loaded`
is applied synchronously at startup, no timer is armed, no player is
created, and the `video-fully-loaded` marker is not applied. -/
theorem claim_C7 (env : Env) (h1 : env.prefersReducedMotion = true)
    (h2 : env.elementsFound = true) :
    init CONFIG env
      = { isVideoReady := false, videoLoadStartTime := 0, fallbackTimer := none,
          pending := [], nextId := 0, playerCreated := false, videoLoaded := true,
          videoFullyLoaded := false, revealTimes := [], settleTimes := [] } := by
  unfold init checkUserPreferences
  rw [h1, h2]
  rfl

/-- Witness for C7 at a concrete reduced-motion environment. -/
theorem claim_C7_witness :
    envRM.prefersReducedMotion = true
    ∧ envRM.elementsFound = true
    ∧ init CONFIG envRM
      = { isVideoReady := false, videoLoadStartTime := 0, fallbackTimer := none,
          pending := [], nextId := 0, playerCreated := false, videoLoaded := true,
          videoFullyLoaded := false, revealTimes := [], settleTimes := [] } :=
  ⟨rfl, rfl, claim_C7 envRM rfl rfl⟩

/-- Helper: the world reached by a healthy start at time 0 followed by the
rejection or error handler running `useFallbackMethod` at time `t`. -/
lemma failureWorld_timed (t : Int) :
    useFallbackMethod t (init CONFIG envOk)
      = { isVideoReady := false, videoLoadStartTime := 0, fallbackTimer := some 0,
          pending := [⟨0, 5000, Cb.fallbackCb⟩, ⟨1, t + 3000, Cb.useFallbackCb⟩],
          nextId := 2, playerCreated := true, videoLoaded := false,
          videoFullyLoaded := false, revealTimes := [], settleTimes := [] } := rfl

/-- Helper: from a fallback timer armed for t = 5000 plus a forced-reveal
timer armed for `t + 3000` (any handler time `t >= 0`), the event loop
converges to the settled state within six steps. -/
lemma converge_timed (t : Int) (ht : 0 ≤ t) :
    settledOk (run CONFIG 6
      { isVideoReady := false, videoLoadStartTime := 0, fallbackTimer := some 0,
        pending := [⟨0, 5000, Cb.fallbackCb⟩, ⟨1, t + 3000, Cb.useFallbackCb⟩],
        nextId := 2, playerCreated := true, videoLoaded := false,
        videoFullyLoaded := false, revealTimes := [], settleTimes := [] }) := by
  rcases lt_trichotomy t 2000 with h1 | h1 | h1
  · -- the forced-reveal body fires first (at t + 3000 < 5000), schedules the
    -- reveal with zero extra delay, the reveal cancels the fallback timer,
    -- then the settle runs
    have hsel1 : nextTimer [(⟨0, 5000, Cb.fallbackCb⟩ : Timer), ⟨1, t + 3000, Cb.useFallbackCb⟩]
        = some ⟨1, t + 3000, Cb.useFallbackCb⟩ := by
      show some (better ⟨0, 5000, Cb.fallbackCb⟩ ⟨1, t + 3000, Cb.useFallbackCb⟩)
        = some (⟨1, t + 3000, Cb.useFallbackCb⟩ : Timer)
      rw [better_snd _ _ (show t + 3000 < 5000 by omega)]
    have e1 : step CONFIG
        { isVideoReady := false, videoLoadStartTime := 0, fallbackTimer := some 0,
          pending := [⟨0, 5000, Cb.fallbackCb⟩, ⟨1, t + 3000, Cb.useFallbackCb⟩],
          nextId := 2, playerCreated := true, videoLoaded := false,
          videoFullyLoaded := false, revealTimes := [], settleTimes := [] }
        = { isVideoReady := false, videoLoadStartTime := 0, fallbackTimer := some 0,
            pending := [⟨0, 5000, Cb.fallbackCb⟩,
              ⟨2, t + 3000 + max 0 (CONFIG.MIN_DISPLAY_TIME - (t + 3000 - 0)), Cb.revealCb⟩],
            nextId := 3, playerCreated := true, videoLoaded := false,
            videoFullyLoaded := false, revealTimes := [], settleTimes := [] } := by
      dsimp only [step]
      rw [hsel1]
      rfl
    rw [show t + 3000 + max 0 (CONFIG.MIN_DISPLAY_TIME - (t + 3000 - 0)) = t + 3000 from by
      rw [show CONFIG.MIN_DISPLAY_TIME = 1500 from rfl, max_eq_left (by omega)]; ring] at e1
    have hsel2 : nextTimer [(⟨0, 5000, Cb.fallbackCb⟩ : Timer), ⟨2, t + 3000, Cb.revealCb⟩]
        = some ⟨2, t + 3000, Cb.revealCb⟩ := by
      show some (better ⟨0, 5000, Cb.fallbackCb⟩ ⟨2, t + 3000, Cb.revealCb⟩)
        = some (⟨2, t + 3000, Cb.revealCb⟩ : Timer)
      rw [better_snd _ _ (show t + 3000 < 5000 by omega)]
    have e2 : step CONFIG
        { isVideoReady := false, videoLoadStartTime := 0, fallbackTimer := some 0,
          pending := [⟨0, 5000, Cb.fallbackCb⟩, ⟨2, t + 3000, Cb.revealCb⟩],
          nextId := 3, playerCreated := true, videoLoaded := false,
          videoFullyLoaded := false, revealTimes := [], settleTimes := [] }
        = { isVideoReady := true, videoLoadStartTime := 0, fallbackTimer := none,
            pending := [⟨3, t + 3000 + 5500, Cb.settleCb⟩],
            nextId := 4, playerCreated := true, videoLoaded := true,
            videoFullyLoaded := false, revealTimes := [t + 3000], settleTimes := [] } := by
      dsimp only [step]
      rw [hsel2]
      rfl
    rw [show run CONFIG 6
        { isVideoReady := false, videoLoadStartTime := 0, fallbackTimer := some 0,
          pending := [⟨0, 5000, Cb.fallbackCb⟩, ⟨1, t + 3000, Cb.useFallbackCb⟩],
          nextId := 2, playerCreated := true, videoLoaded := false,
          videoFullyLoaded := false, revealTimes := [], settleTimes := [] }
        = run CONFIG 5 (step CONFIG
        { isVideoReady := false, videoLoadStartTime := 0, fallbackTimer := some 0,
          pending := [⟨0, 5000, Cb.fallbackCb⟩, ⟨1, t + 3000, Cb.useFallbackCb⟩],
          nextId := 2, playerCreated := true, videoLoaded := false,
          videoFullyLoaded := false, revealTimes := [], settleTimes := [] }) from rfl, e1,
      show run CONFIG 5
        { isVideoReady := false, videoLoadStartTime := 0, fallbackTimer := some 0,
          pending := [⟨0, 5000, Cb.fallbackCb⟩, ⟨2, t + 3000, Cb.revealCb⟩],
          nextId := 3, playerCreated := true, videoLoaded := false,
          videoFullyLoaded := false, revealTimes := [], settleTimes := [] }
        = run CONFIG 4 (step CONFIG
        { isVideoReady := false, videoLoadStartTime := 0, fallbackTimer := some 0,
          pending := [⟨0, 5000, Cb.fallbackCb⟩, ⟨2, t + 3000, Cb.revealCb⟩],
          nextId := 3, playerCreated := true, videoLoaded := false,
          videoFullyLoaded := false, revealTimes := [], settleTimes := [] }) from rfl, e2]
    exact ⟨rfl, rfl, rfl, rfl⟩
  · -- boundary case: handler at t = 2000, both timers due at 5000; the
    -- fallback body and the forced-reveal body both fire, the reveal runs
    -- twice, and the loop still converges
    subst h1
    decide
  · -- the fallback timer fires first at 5000, the reveal runs at 5000 and
    -- cancels the (already fired) fallback handle, then the remaining
    -- forced-reveal body is a no-op and the settle runs at 10500
    have hsel1 : nextTimer [(⟨0, 5000, Cb.fallbackCb⟩ : Timer), ⟨1, t + 3000, Cb.useFallbackCb⟩]
        = some ⟨0, 5000, Cb.fallbackCb⟩ := by
      show some (better ⟨0, 5000, Cb.fallbackCb⟩ ⟨1, t + 3000, Cb.useFallbackCb⟩)
        = some (⟨0, 5000, Cb.fallbackCb⟩ : Timer)
      rw [better_fst _ _ (show (5000 : Int) ≤ t + 3000 by omega) (show (0 : Nat) < 1 by omega)]
    have e1 : step CONFIG
        { isVideoReady := false, videoLoadStartTime := 0, fallbackTimer := some 0,
          pending := [⟨0, 5000, Cb.fallbackCb⟩, ⟨1, t + 3000, Cb.useFallbackCb⟩],
          nextId := 2, playerCreated := true, videoLoaded := false,
          videoFullyLoaded := false, revealTimes := [], settleTimes := [] }
        = { isVideoReady := false, videoLoadStartTime := 0, fallbackTimer := some 0,
            pending := [⟨1, t + 3000, Cb.useFallbackCb⟩,
              ⟨2, 5000 + max 0 (CONFIG.MIN_DISPLAY_TIME - (5000 - 0)), Cb.revealCb⟩],
            nextId := 3, playerCreated := true, videoLoaded := false,
            videoFullyLoaded := false, revealTimes := [], settleTimes := [] } := by
      dsimp only [step]
      rw [hsel1]
      rfl
    rw [show (5000 : Int) + max 0 (CONFIG.MIN_DISPLAY_TIME - (5000 - 0)) = 5000 from by
      decide] at e1
    have hsel2 : nextTimer [(⟨1, t + 3000, Cb.useFallbackCb⟩ : Timer), ⟨2, 5000, Cb.revealCb⟩]
        = some ⟨2, 5000, Cb.revealCb⟩ := by
      show some (better ⟨1, t + 3000, Cb.useFallbackCb⟩ ⟨2, 5000, Cb.revealCb⟩)
        = some (⟨2, 5000, Cb.revealCb⟩ : Timer)
      rw [better_snd _ _ (show (5000 : Int) < t + 3000 by omega)]
    have e2 : step CONFIG
        { isVideoReady := false, videoLoadStartTime := 0, fallbackTimer := some 0,
          pending := [⟨1, t + 3000, Cb.useFallbackCb⟩, ⟨2, 5000, Cb.revealCb⟩],
          nextId := 3, playerCreated := true, videoLoaded := false,
          videoFullyLoaded := false, revealTimes := [], settleTimes := [] }
        = { isVideoReady := true, videoLoadStartTime := 0, fallbackTimer := none,
            pending := [⟨1, t + 3000, Cb.useFallbackCb⟩, ⟨3, 10500, Cb.settleCb⟩],
            nextId := 4, playerCreated := true, videoLoaded := true,
            videoFullyLoaded := false, revealTimes := [5000], settleTimes := [] } := by
      dsimp only [step]
      rw [hsel2]
      rfl
    rw [show run CONFIG 6
        { isVideoReady := false, videoLoadStartTime := 0, fallbackTimer := some 0,
          pending := [⟨0, 5000, Cb.fallbackCb⟩, ⟨1, t + 3000, Cb.useFallbackCb⟩],
          nextId := 2, playerCreated := true, videoLoaded := false,
          videoFullyLoaded := false, revealTimes := [], settleTimes := [] }
        = run CONFIG 5 (step CONFIG
        { isVideoReady := false, videoLoadStartTime := 0, fallbackTimer := some 0,
          pending := [⟨0, 5000, Cb.fallbackCb⟩, ⟨1, t + 3000, Cb.useFallbackCb⟩],
          nextId := 2, playerCreated := true, videoLoaded := false,
          videoFullyLoaded := false, revealTimes := [], settleTimes := [] }) from rfl, e1,
      show run CONFIG 5
        { isVideoReady := false, videoLoadStartTime := 0, fallbackTimer := some 0,
          pending := [⟨1, t + 3000, Cb.useFallbackCb⟩, ⟨2, 5000, Cb.revealCb⟩],
          nextId := 3, playerCreated := true, videoLoaded := false,
          videoFullyLoaded := false, revealTimes := [], settleTimes := [] }
        = run CONFIG 4 (step CONFIG
        { isVideoReady := false, videoLoadStartTime := 0, fallbackTimer := some 0,
          pending := [⟨1, t + 3000, Cb.useFallbackCb⟩, ⟨2, 5000, Cb.revealCb⟩],
          nextId := 3, playerCreated := true, videoLoaded := false,
          videoFullyLoaded := false, revealTimes := [], settleTimes := [] }) from rfl, e2]
    -- two non-reveal timers remain; whichever fires first, the loop settles
    rcases lt_trichotomy (t + 3000) 10500 with h2 | h2 | h2
    · have hsel3 : nextTimer [(⟨1, t + 3000, Cb.useFallbackCb⟩ : Timer), ⟨3, 10500, Cb.settleCb⟩]
          = some ⟨1, t + 3000, Cb.useFallbackCb⟩ := by
        show some (better ⟨1, t + 3000, Cb.useFallbackCb⟩ ⟨3, 10500, Cb.settleCb⟩)
          = some (⟨1, t + 3000, Cb.useFallbackCb⟩ : Timer)
        rw [better_fst _ _ (show t + 3000 ≤ 10500 by omega) (show (1 : Nat) < 3 by omega)]
      have e3 : step CONFIG
          { isVideoReady := true, videoLoadStartTime := 0, fallbackTimer := none,
            pending := [⟨1, t + 3000, Cb.useFallbackCb⟩, ⟨3, 10500, Cb.settleCb⟩],
            nextId := 4, playerCreated := true, videoLoaded := true,
            videoFullyLoaded := false, revealTimes := [5000], settleTimes := [] }
          = { isVideoReady := true, videoLoadStartTime := 0, fallbackTimer := none,
              pending := [⟨3, 10500, Cb.settleCb⟩],
              nextId := 4, playerCreated := true, videoLoaded := true,
              videoFullyLoaded := false, revealTimes := [5000], settleTimes := [] } := by
        dsimp only [step]
        rw [hsel3]
        rfl
      rw [show run CONFIG 4
          { isVideoReady := true, videoLoadStartTime := 0, fallbackTimer := none,
            pending := [⟨1, t + 3000, Cb.useFallbackCb⟩, ⟨3, 10500, Cb.settleCb⟩],
            nextId := 4, playerCreated := true, videoLoaded := true,
            videoFullyLoaded := false, revealTimes := [5000], settleTimes := [] }
          = run CONFIG 3 (step CONFIG
          { isVideoReady := true, videoLoadStartTime := 0, fallbackTimer := none,
            pending := [⟨1, t + 3000, Cb.useFallbackCb⟩, ⟨3, 10500, Cb.settleCb⟩],
            nextId := 4, playerCreated := true, videoLoaded := true,
            videoFullyLoaded := false, revealTimes := [5000], settleTimes := [] }) from rfl, e3]
      exact ⟨rfl, rfl, rfl, rfl⟩
    · have ht2 : t = 7500 := by omega
      subst ht2
      decide
    · have hsel3 : nextTimer [(⟨1, t + 3000, Cb.useFallbackCb⟩ : Timer), ⟨3, 10500, Cb.settleCb⟩]
          = some ⟨3, 10500, Cb.settleCb⟩ := by
        show some (better ⟨1, t + 3000, Cb.useFallbackCb⟩ ⟨3, 10500, Cb.settleCb⟩)
          = some (⟨3, 10500, Cb.settleCb⟩ : Timer)
        rw [better_snd _ _ (show (10500 : Int) < t + 3000 by omega)]
      have e3 : step CONFIG
          { isVideoReady := true, videoLoadStartTime := 0, fallbackTimer := none,
            pending := [⟨1, t + 3000, Cb.useFallbackCb⟩, ⟨3, 10500, Cb.settleCb⟩],
            nextId := 4, playerCreated := true, videoLoaded := true,
            videoFullyLoaded := false, revealTimes := [5000], settleTimes := [] }
          = { isVideoReady := true, videoLoadStartTime := 0, fallbackTimer := none,
              pending := [⟨1, t + 3000, Cb.useFallbackCb⟩],
              nextId := 4, playerCreated := true, videoLoaded := true,
              videoFullyLoaded := true, revealTimes := [5000], settleTimes := [10500] } := by
        dsimp only [step]
        rw [hsel3]
        rfl
      rw [show run CONFIG 4
          { isVideoReady := true, videoLoadStartTime := 0, fallbackTimer := none,
            pending := [⟨1, t + 3000, Cb.useFallbackCb⟩, ⟨3, 10500, Cb.settleCb⟩],
            nextId := 4, playerCreated := true, videoLoaded := true,
            videoFullyLoaded := false, revealTimes := [5000], settleTimes := [] }
          = run CONFIG 3 (step CONFIG
          { isVideoReady := true, videoLoadStartTime := 0, fallbackTimer := none,
            pending := [⟨1, t + 3000, Cb.useFallbackCb⟩, ⟨3, 10500, Cb.settleCb⟩],
            nextId := 4, playerCreated := true, videoLoaded := true,
            videoFullyLoaded := false, revealTimes := [5000], settleTimes := [] }) from rfl, e3]
      exact ⟨rfl, rfl, rfl, rfl⟩

/-- C4: for every failure mode - API absent at start, construction throwing,
the ready promise rejecting at any time `t >= 0`, a runtime error event at
any time `t >= 0`, or no readiness signal ever arriving - the gate performs
the same forced-reveal recovery and converges to the revealed and then
settled state with an empty timer queue. -/
theorem claim_C4 (m : FailureMode) (h : m.eventTimeValid) :
    settledOk (run CONFIG 6 (failureWorld CONFIG m)) := by
  cases m with
  | apiAbsent => decide
  | constructionThrows => decide
  | readyRejects t =>
      rw [show failureWorld CONFIG (FailureMode.readyRejects t)
          = useFallbackMethod t (init CONFIG envOk) from rfl, failureWorld_timed t]
      exact converge_timed t h
  | errorEvent t =>
      rw [show failureWorld CONFIG (FailureMode.errorEvent t)
          = useFallbackMethod t (init CONFIG envOk) from rfl, failureWorld_timed t]
      exact converge_timed t h
  | noSignal => decide

/-- Witness for C4 at the concrete mode of a ready-promise rejection at t = 0. -/
theorem claim_C4_witness :
    (FailureMode.readyRejects 0).eventTimeValid
    ∧ settledOk (run CONFIG 6 (failureWorld CONFIG (FailureMode.readyRejects 0))) :=
  ⟨le_refl 0, claim_C4 (FailureMode.readyRejects 0) (le_refl 0)⟩

/-- C8: the reveal is two-stage.  With start at 0 and a signal at t = 200,
after one loop step (the reveal, at t = 1500) the container carries
`video-loaded` but not yet `video-fully-loaded`; after the second step (the
settle, 5500 ms later at t = 7000) it carries `video-fully-loaded`. -/
theorem claim_C8 :
    (run CONFIG 1 (handleVideoReady CONFIG 200 (init CONFIG envOk))).videoLoaded = true
    ∧ (run CONFIG 1 (handleVideoReady CONFIG 200 (init CONFIG envOk))).videoFullyLoaded = false
    ∧ (run CONFIG 2 (handleVideoReady CONFIG 200 (init CONFIG envOk))).videoFullyLoaded = true
    ∧ (run CONFIG 2 (handleVideoReady CONFIG 200 (init CONFIG envOk))).revealTimes = [1500]
    ∧ (run CONFIG 2 (handleVideoReady CONFIG 200 (init CONFIG envOk))).settleTimes = [7000] := by
  decide

/-- Helper: one scroll event never leaves both direction classes set - each
branch that adds one of the two classes removes the other in the same step. -/
lemma headerOnScroll_inv (s : HeaderState) (c : Int)
    (h : (s.scrollDown && s.scrollUp) = false) :
    ((headerOnScroll s c).scrollDown && (headerOnScroll s c).scrollUp) = false := by
  dsimp only [headerOnScroll]
  split_ifs <;> simp_all

/-- C9: after any sequence of scroll events processed by the header scroll
handler from the initial header state, the header never carries both the
scroll-down and the scroll-up class at the same time. -/
theorem claim_C9 (evts : List Int) :
    ((evts.foldl headerOnScroll initialHeader).scrollDown
      && (evts.foldl headerOnScroll initialHeader).scrollUp) = false := by
  have key : ∀ (l : List Int) (s : HeaderState), (s.scrollDown && s.scrollUp) = false →
      ((l.foldl headerOnScroll s).scrollDown && (l.foldl headerOnScroll s).scrollUp) = false := by
    intro l
    induction l with
    | nil => intro s h; simpa using h
    | cons c rest ih =>
        intro s h
        simpa using ih (headerOnScroll s c) (headerOnScroll_inv s c h)
  exact key evts initialHeader rfl

/-- Helper: running the interval one more firing equals firing once after
running it. -/
lemma runCounter_succ_right (add : Rat → Rat → Rat) (target : String) (tgt inc : Rat) :
    ∀ (k : Nat) (s : CounterState),
      runCounter add target tgt inc (k + 1) s
        = counterTick add target tgt inc (runCounter add target tgt inc k s) := by
  intro k
  induction k with
  | zero => intro s; rfl
  | succ m ih =>
      intro s
      show runCounter add target tgt inc (m + 1) (counterTick add target tgt inc s)
        = counterTick add target tgt inc (runCounter add target tgt inc (m + 1) s)
      rw [ih (counterTick add target tgt inc s)]
      rfl

/-- Helper: one live firing either clears the interval - restoring the
target text, with the threshold reached - or keeps it live with the
threshold missed; either way `current` becomes the rounded sum. -/
lemma counterTick_step (add : Rat → Rat → Rat) (target : String) (tgt inc : Rat)
    (s : CounterState) (hc : s.cleared = false) :
    ((counterTick add target tgt inc s).cleared = true
      ∧ (counterTick add target tgt inc s).text = target
      ∧ (counterTick add target tgt inc s).current = add s.current inc
      ∧ tgt ≤ add s.current inc)
    ∨ ((counterTick add target tgt inc s).cleared = false
      ∧ (counterTick add target tgt inc s).current = add s.current inc
      ∧ add s.current inc < tgt) := by
  unfold counterTick
  rw [hc, if_neg Bool.false_ne_true]
  rcases le_or_lt tgt (add s.current inc) with hge | hlt
  · rw [if_pos hge]
    exact Or.inl ⟨rfl, rfl, rfl, hge⟩
  · rw [if_neg (not_le.mpr hlt)]
    exact Or.inr ⟨rfl, rfl, hlt⟩

/-- Helper: invariant of the counter loop under any machine addition within
the per-operation relative error bound `e`: after `k` firings the interval
is either cleared with the target text restored, or still live with
`current` at least `k * (tgt / 125) * (1 - e) ^ (k + 1)`. -/
lemma counter_live (add : Rat → Rat → Rat) (target raw : String) (tgt inc e : Rat)
    (he0 : 0 ≤ e) (he1 : e ≤ 1) (htgt0 : 0 ≤ tgt)
    (hinc : tgt / 125 * (1 - e) ≤ inc)
    (hadd : ∀ a b : Rat, 0 ≤ a → 0 ≤ b → (a + b) * (1 - e) ≤ add a b) :
    ∀ k : Nat,
      ((runCounter add target tgt inc k { current := 0, text := raw, cleared := false }).cleared = true
        ∧ (runCounter add target tgt inc k { current := 0, text := raw, cleared := false }).text = target)
      ∨ ((runCounter add target tgt inc k { current := 0, text := raw, cleared := false }).cleared = false
        ∧ 0 ≤ (runCounter add target tgt inc k { current := 0, text := raw, cleared := false }).current
        ∧ (k : Rat) * (tgt / 125) * (1 - e) ^ (k + 1)
            ≤ (runCounter add target tgt inc k { current := 0, text := raw, cleared := false }).current) := by
  have hinc0 : 0 ≤ inc :=
    le_trans (mul_nonneg (div_nonneg htgt0 (by norm_num)) (by linarith)) hinc
  intro k
  induction k with
  | zero =>
      right
      refine ⟨rfl, ?_, ?_⟩
      · exact le_of_eq (show (0 : Rat)
          = (runCounter add target tgt inc 0
              { current := 0, text := raw, cleared := false }).current from rfl)
      · rw [show (runCounter add target tgt inc 0
            { current := 0, text := raw, cleared := false }).current = (0 : Rat) from rfl]
        norm_num
  | succ m ih =>
      rw [runCounter_succ_right]
      rcases ih with ⟨hc, ht⟩ | ⟨hc, h0, hlow⟩
      · left
        rw [show counterTick add target tgt inc
              (runCounter add target tgt inc m { current := 0, text := raw, cleared := false })
            = runCounter add target tgt inc m { current := 0, text := raw, cleared := false } from by
          unfold counterTick; rw [if_pos hc]]
        exact ⟨hc, ht⟩
      · have haddL := hadd _ _ h0 hinc0
        have hnew0 : 0 ≤ add (runCounter add target tgt inc m
            { current := 0, text := raw, cleared := false }).current inc :=
          le_trans (mul_nonneg (add_nonneg h0 hinc0) (by linarith)) haddL
        have hpow : (1 - e) ^ (m + 1) ≤ (1 - e) ^ 1 :=
          pow_le_pow_of_le_one (by linarith) (by linarith) (by omega)
        have hc1 : tgt / 125 * (1 - e) ^ (m + 1) ≤ inc := by
          have h2 : tgt / 125 * (1 - e) ^ (m + 1) ≤ tgt / 125 * (1 - e) ^ 1 :=
            mul_le_mul_of_nonneg_left hpow (div_nonneg htgt0 (by norm_num))
          rw [pow_one] at h2
          exact le_trans h2 hinc
        have hsum : ((m : Rat) + 1) * (tgt / 125) * (1 - e) ^ (m + 1)
            ≤ (runCounter add target tgt inc m
                { current := 0, text := raw, cleared := false }).current + inc := by
          have expand : ((m : Rat) + 1) * (tgt / 125) * (1 - e) ^ (m + 1)
              = (m : Rat) * (tgt / 125) * (1 - e) ^ (m + 1)
                + tgt / 125 * (1 - e) ^ (m + 1) := by ring
          rw [expand]
          exact add_le_add hlow hc1
        have hlow2 : ((m + 1 : Nat) : Rat) * (tgt / 125) * (1 - e) ^ (m + 1 + 1)
            ≤ add (runCounter add target tgt inc m
                { current := 0, text := raw, cleared := false }).current inc := by
          calc ((m + 1 : Nat) : Rat) * (tgt / 125) * (1 - e) ^ (m + 1 + 1)
              = (((m : Rat) + 1) * (tgt / 125) * (1 - e) ^ (m + 1)) * (1 - e) := by
                push_cast
                ring
            _ ≤ ((runCounter add target tgt inc m
                  { current := 0, text := raw, cleared := false }).current + inc) * (1 - e) :=
                mul_le_mul_of_nonneg_right hsum (by linarith)
            _ ≤ add (runCounter add target tgt inc m
                  { current := 0, text := raw, cleared := false }).current inc := haddL
        rcases counterTick_step add target tgt inc
            (runCounter add target tgt inc m { current := 0, text := raw, cleared := false }) hc with
          ⟨h1, h2, _, _⟩ | ⟨h1, h3, _⟩
        · left
          exact ⟨h1, h2⟩
        · right
          refine ⟨h1, ?_, ?_⟩
          · rw [h3]
            exact hnew0
          · rw [h3]
            exact hlow2

/-- Helper: the accumulated-error threshold inequality, in a clean context:
if `cur` carries the 125-firing lower bound, one more rounded addition of
`inc` reaches the machine target value. -/
lemma counter_threshold (tgt inc e cur : Rat)
    (he0 : 0 ≤ e) (heb : e * 16002 ≤ 1) (htgt0 : 0 ≤ tgt)
    (hinc : tgt / 125 * (1 - e) ≤ inc)
    (hlow : ((125 : Nat) : Rat) * (tgt / 125) * (1 - e) ^ (125 + 1) ≤ cur) :
    tgt ≤ (cur + inc) * (1 - e) := by
  have he1 : e ≤ 1 := by nlinarith
  obtain ⟨B, hBdef⟩ : ∃ B : Rat, (1 - e) ^ (125 + 1) = B := ⟨(1 - e) ^ (125 + 1), rfl⟩
  rw [hBdef] at hlow
  have hB0 : 0 ≤ B := by
    rw [← hBdef]
    exact pow_nonneg (by linarith) _
  have hB1 : 1 - 126 * e ≤ B := by
    rw [← hBdef]
    have h := one_add_mul_le_pow (show (-2 : Rat) ≤ -e by linarith) (125 + 1)
    calc 1 - 126 * e = 1 + ((125 + 1 : Nat) : Rat) * (-e) := by push_cast; ring
      _ ≤ (1 + -e) ^ (125 + 1) := h
      _ = (1 - e) ^ (125 + 1) := by rw [sub_eq_add_neg]
  clear hBdef
  have h3 : tgt ≤ (((125 : Nat) : Rat) * (tgt / 125) * B
      + tgt / 125 * (1 - e)) * (1 - e) := by
    have expand : (((125 : Nat) : Rat) * (tgt / 125) * B
        + tgt / 125 * (1 - e)) * (1 - e)
        = tgt * (B * (1 - e)) + tgt / 125 * ((1 - e) * (1 - e)) := by
      push_cast
      ring
    rw [expand]
    have l1 : 1 - 127 * e ≤ B * (1 - e) := by
      nlinarith [mul_le_mul_of_nonneg_right hB1 (show (0 : Rat) ≤ 1 - e by linarith),
        sq_nonneg e]
    have l2 : 1 - 2 * e ≤ (1 - e) * (1 - e) := by nlinarith [sq_nonneg e]
    have m1 : tgt * (1 - 127 * e) ≤ tgt * (B * (1 - e)) := mul_le_mul_of_nonneg_left l1 htgt0
    have m2 : tgt / 125 * (1 - 2 * e) ≤ tgt / 125 * ((1 - e) * (1 - e)) :=
      mul_le_mul_of_nonneg_left l2 (div_nonneg htgt0 (by norm_num))
    have k3 : tgt * (e * 16002) ≤ tgt * 1 := mul_le_mul_of_nonneg_left heb htgt0
    nlinarith [m1, m2, k3, mul_nonneg htgt0 he0]
  have hchain : (((125 : Nat) : Rat) * (tgt / 125) * B
      + tgt / 125 * (1 - e)) * (1 - e)
      ≤ (cur + inc) * (1 - e) :=
    mul_le_mul_of_nonneg_right (add_le_add hlow hinc) (by linarith)
  exact le_trans h3 hchain

/-- Helper: under the rounding bound `e * 16002 <= 1` (binary64's
`e = 2^-53` satisfies this with room to spare) the interval is cleared by
firing 126 and the target text is restored - for every machine target value
and every compliant rounding. -/
lemma counter_done_126 (add : Rat → Rat → Rat) (target raw : String) (tgt inc e : Rat)
    (he0 : 0 ≤ e) (heb : e * 16002 ≤ 1) (htgt0 : 0 ≤ tgt)
    (hinc : tgt / 125 * (1 - e) ≤ inc)
    (hadd : ∀ a b : Rat, 0 ≤ a → 0 ≤ b → (a + b) * (1 - e) ≤ add a b) :
    (runCounter add target tgt inc 126 { current := 0, text := raw, cleared := false }).cleared = true
    ∧ (runCounter add target tgt inc 126 { current := 0, text := raw, cleared := false }).text = target := by
  have he1 : e ≤ 1 := by nlinarith
  have hinc0 : 0 ≤ inc :=
    le_trans (mul_nonneg (div_nonneg htgt0 (by norm_num)) (by linarith)) hinc
  have H := counter_live add target raw tgt inc e he0 he1 htgt0 hinc hadd 125
  rw [show (126 : Nat) = 125 + 1 from rfl, runCounter_succ_right]
  rcases H with ⟨hc, ht⟩ | ⟨hc, h0, hlow⟩
  · rw [show counterTick add target tgt inc
          (runCounter add target tgt inc 125 { current := 0, text := raw, cleared := false })
        = runCounter add target tgt inc 125 { current := 0, text := raw, cleared := false } from by
      unfold counterTick; rw [if_pos hc]]
    exact ⟨hc, ht⟩
  · -- pure term-mode assembly: no arithmetic tactic ever sees the
    -- literal-fuel run term, whose unfolding is exponential
    have hge : tgt ≤ add (runCounter add target tgt inc 125
        { current := 0, text := raw, cleared := false }).current inc :=
      le_trans (counter_threshold tgt inc e _ he0 heb htgt0 hinc hlow)
        (hadd _ _ h0 hinc0)
    rcases counterTick_step add target tgt inc
        (runCounter add target tgt inc 125 { current := 0, text := raw, cleared := false }) hc with
      ⟨h1, h2, _, _⟩ | ⟨_, _, h4⟩
    · exact ⟨h1, h2⟩
    · exact absurd hge (not_le.mpr h4)

/-- Helper: with machine target value 0 (`parseInt` gives exactly 0, and
`0 / 125 = 0` and `0 + 0 = 0` are exact in binary64) the very first firing
already clears the interval and restores the target text, for any compliant
rounding. -/
lemma counter_zero_tick (add : Rat → Rat → Rat) (target raw : String) (inc e : Rat)
    (he1 : e ≤ 1) (hinc0 : 0 ≤ inc)
    (hadd : ∀ a b : Rat, 0 ≤ a → 0 ≤ b → (a + b) * (1 - e) ≤ add a b) :
    (counterTick add target 0 inc { current := 0, text := raw, cleared := false }).cleared = true
    ∧ (counterTick add target 0 inc { current := 0, text := raw, cleared := false }).text = target := by
  have hge0 : (0 : Rat)
      ≤ add ({ current := 0, text := raw, cleared := false } : CounterState).current inc := by
    have h1 := hadd 0 inc (le_refl 0) hinc0
    have h2 : (0 : Rat) ≤ (0 + inc) * (1 - e) :=
      mul_nonneg (by simpa using hinc0) (by linarith)
    exact le_trans h2 h1
  rcases counterTick_step add target 0 inc
      { current := 0, text := raw, cleared := false } rfl with
    ⟨h1, h2, _, _⟩ | ⟨_, _, h4⟩
  · exact ⟨h1, h2⟩
  · exact absurd hge0 (not_le.mpr h4)

/-- Helper: for any element text containing a digit, 126 interval firings
end with the trimmed original text restored, under any compliant machine
arithmetic. -/
lemma animateCounter_final (add : Rat → Rat → Rat) (parse : List Char → Rat)
    (div125 : Rat → Rat) (e : Rat) (raw : String)
    (he0 : 0 ≤ e) (heb : e * 16002 ≤ 1)
    (hparse : ∀ l : List Char, 0 ≤ parse l)
    (hdiv : ∀ x : Rat, 0 ≤ x → x / (2000 / 16) * (1 - e) ≤ div125 x)
    (hadd : ∀ a b : Rat, 0 ≤ a → 0 ≤ b → (a + b) * (1 - e) ≤ add a b)
    (h : extractDigits (jsTrim raw) ≠ []) :
    animateCounter add parse div125 raw 126 = jsTrim raw := by
  unfold animateCounter
  rw [if_neg h]
  have hinc : parse (extractDigits (jsTrim raw)) / 125 * (1 - e)
      ≤ div125 (parse (extractDigits (jsTrim raw))) := by
    have h2 := hdiv (parse (extractDigits (jsTrim raw))) (hparse _)
    rwa [show ((2000 : Rat) / 16) = 125 from by norm_num] at h2
  exact (counter_done_126 add (jsTrim raw) raw (parse (extractDigits (jsTrim raw)))
    (div125 (parse (extractDigits (jsTrim raw)))) e he0 heb (hparse _) hinc hadd).2

/-- C10 (amended): for every element text whose trimmed form contains a
digit, and for every machine arithmetic within the IEEE-754 round-to-nearest
per-operation error bound (relative error `e` with `e * 16002 <= 1`, which
binary64's `2^-53` satisfies; `e = 0` is exact arithmetic), the counter
animation terminates - the interval is cleared by firing 126, and on the
very first firing when the extracted target number is 0 - and the final
displayed text is the trimmed original text; elements whose text contains no
digit are left unchanged. -/
theorem claim_C10 (add : Rat → Rat → Rat) (parse : List Char → Rat) (div125 : Rat → Rat)
    (e : Rat) (raw : String)
    (he0 : 0 ≤ e) (heb : e * 16002 ≤ 1)
    (hparse : ∀ l : List Char, 0 ≤ parse l)
    (hparse0 : ∀ l : List Char, digitsVal l = 0 → parse l = 0)
    (hdiv : ∀ x : Rat, 0 ≤ x → x / (2000 / 16) * (1 - e) ≤ div125 x)
    (hadd : ∀ a b : Rat, 0 ≤ a → 0 ≤ b → (a + b) * (1 - e) ≤ add a b) :
    (extractDigits (jsTrim raw) ≠ [] →
      animateCounter add parse div125 raw 126 = jsTrim raw
      ∧ (runCounter add (jsTrim raw) (parse (extractDigits (jsTrim raw)))
          (div125 (parse (extractDigits (jsTrim raw)))) 126
          { current := 0, text := raw, cleared := false }).cleared = true
      ∧ (digitsVal (extractDigits (jsTrim raw)) = 0 →
          (counterTick add (jsTrim raw) (parse (extractDigits (jsTrim raw)))
            (div125 (parse (extractDigits (jsTrim raw))))
            { current := 0, text := raw, cleared := false }).cleared = true
          ∧ (counterTick add (jsTrim raw) (parse (extractDigits (jsTrim raw)))
              (div125 (parse (extractDigits (jsTrim raw))))
              { current := 0, text := raw, cleared := false }).text = jsTrim raw))
    ∧ (extractDigits (jsTrim raw) = [] → animateCounter add parse div125 raw 126 = raw) := by
  have he1 : e ≤ 1 := by nlinarith
  have hinc : parse (extractDigits (jsTrim raw)) / 125 * (1 - e)
      ≤ div125 (parse (extractDigits (jsTrim raw))) := by
    have h2 := hdiv (parse (extractDigits (jsTrim raw))) (hparse _)
    rwa [show ((2000 : Rat) / 16) = 125 from by norm_num] at h2
  have hinc0 : 0 ≤ div125 (parse (extractDigits (jsTrim raw))) :=
    le_trans (mul_nonneg (div_nonneg (hparse _) (by norm_num)) (by linarith)) hinc
  constructor
  · intro h
    refine ⟨animateCounter_final add parse div125 e raw he0 heb hparse hdiv hadd h, ?_, ?_⟩
    · exact (counter_done_126 add (jsTrim raw) raw (parse (extractDigits (jsTrim raw)))
        (div125 (parse (extractDigits (jsTrim raw)))) e he0 heb (hparse _) hinc hadd).1
    · intro h0
      have hp0 : parse (extractDigits (jsTrim raw)) = 0 := hparse0 _ h0
      rw [hp0]
      rw [hp0] at hinc0
      exact counter_zero_tick add (jsTrim raw) raw (div125 0) e he1 hinc0 hadd
  · intro h
    unfold animateCounter
    rw [if_pos h]

/-- Witness for C10 at the digit-bearing text "100+" with the exact-rational
machine arithmetic (which satisfies every rounding hypothesis with e = 0). -/
theorem claim_C10_witness :
    (0 : Rat) ≤ 0
    ∧ (0 : Rat) * 16002 ≤ 1
    ∧ extractDigits (jsTrim ("100+")) ≠ []
    ∧ animateCounter addExact parseExact divExact ("100+") 126 = jsTrim ("100+")
    ∧ (runCounter addExact (jsTrim ("100+")) (parseExact (extractDigits (jsTrim ("100+"))))
        (divExact (parseExact (extractDigits (jsTrim ("100+"))))) 126
        { current := 0, text := ("100+"), cleared := false }).cleared = true := by
  have h1 : (0 : Rat) ≤ 0 := le_refl 0
  have h2 : (0 : Rat) * 16002 ≤ 1 := by norm_num
  have hparse : ∀ l : List Char, 0 ≤ parseExact l := fun l => Nat.cast_nonneg _
  have hparse0 : ∀ l : List Char, digitsVal l = 0 → parseExact l = 0 := by
    intro l h
    simp [parseExact, h]
  have hdiv : ∀ x : Rat, 0 ≤ x → x / (2000 / 16) * (1 - (0 : Rat)) ≤ divExact x := by
    intro x _
    simp [divExact]
  have hadd : ∀ a b : Rat, 0 ≤ a → 0 ≤ b → (a + b) * (1 - (0 : Rat)) ≤ addExact a b := by
    intro a b _ _
    simp [addExact]
  have hd : extractDigits (jsTrim ("100+")) ≠ [] := by decide
  have H := (claim_C10 addExact parseExact divExact 0 ("100+") h1 h2 hparse hparse0 hdiv hadd).1 hd
  exact ⟨h1, h2, hd, H.1, H.2.1⟩

/-- C10 counterexample: for the element text " 125" the animation ends with
the trimmed text "125", which differs from the original text - so the final
displayed text does not equal the original text exactly.  For this input
every binary64 operation in the source is exact (parseInt gives 125, the
increment is 125 / 125 = 1 and every partial sum is a small integer), so the
exact-rational instances coincide with the program. -/
theorem claim_C10_cex :
    animateCounter addExact parseExact divExact (" 125") 126 = ("125")
    ∧ (" 125") ≠ ("125") := by
  have h1 : (0 : Rat) ≤ 0 := le_refl 0
  have h2 : (0 : Rat) * 16002 ≤ 1 := by norm_num
  have hparse : ∀ l : List Char, 0 ≤ parseExact l := fun l => Nat.cast_nonneg _
  have hdiv : ∀ x : Rat, 0 ≤ x → x / (2000 / 16) * (1 - (0 : Rat)) ≤ divExact x := by
    intro x _
    simp [divExact]
  have hadd : ∀ a b : Rat, 0 ≤ a → 0 ≤ b → (a + b) * (1 - (0 : Rat)) ≤ addExact a b := by
    intro a b _ _
    simp [addExact]
  have h := animateCounter_final addExact parseExact divExact 0 (" 125")
    h1 h2 hparse hdiv hadd (by decide)
  constructor
  · rw [h]
    decide
  · decide
